import Mathlib

/-!
Shallow embedding of the weapon-message-service core (NestJS/TypeScript):
the auth service (src/auth/auth.service.ts), the Redis session cache
(src/redis/redis.service.ts), the message store (src/messages/messages.service.ts)
and the chat gateway handlers (src/gateway/chat.gateway.ts).

Modelling conventions:
- JS numbers are Int (user ids, unix seconds); JS truthiness of a number is
  modelled explicitly (0 is falsy), of a string ("" is falsy), of an optional
  (null/undefined is falsy).
- jwt.decode is an opaque external function, carried in the environment as
  String -> Option JWTPayload (none = undecodable/malformed; the try/catch in
  parseTokenLocally makes the operation total).
- The Redis token cache token:{t}:user is a function String -> Option Int
  (get returns the stored integer id or null).
- Database UUIDs are modelled as naturals drawn from freshness counters
  (nextChatId, nextMsgId); list order of chat.messages models created_at order.
  Timestamps themselves are not modelled (no verified claim depends on them).
- The remote identity-service call (axios GET /api/users/me) is modelled by its
  outcome: a 2xx body, an AxiosError with optional error code and optional HTTP
  status, or a non-Axios error.
- Socket.io state: userSockets is the in-process registry (assoc list
  userId -> socket-id set), rooms is the adapter room membership map
  (room name -> socket-id set, fed only by explicit join calls).
  Emits and the offline-notification dispatch are recorded as effects.
-/

namespace WeaponMsg

/-- Decoded JWT claims, as in interface JWTPayload (iat and extra fields ignored). -/
structure JWTPayload where
  id : Int
  exp : Option Int
  deriving Repr, DecidableEq

/-- Minimal user identity, as in interface UserInfo. -/
structure UserInfo where
  id : Int
  email : String
  username : String
  deriving Repr, DecidableEq

/-- External environment of AuthService: the jwt.decode function and the clock
(Math.floor(Date.now() / 1000)). -/
structure AuthEnv where
  decode : String → Option JWTPayload
  now : Int

/-- JS truthiness of an optional number: null/undefined and 0 are falsy. -/
def truthyOptInt : Option Int → Bool
  | some n => !(n == 0)
  | none => false

/-- JS truthiness of an optional string: null/undefined and "" are falsy. -/
def truthyOptStr : Option String → Bool
  | some s => !(s == "")
  | none => false

/-- AuthService.parseTokenLocally: decode without signature verification,
reject on falsy decoded or falsy decoded.id, reject when a truthy exp claim is
earlier than now, else return the subject id. Total (the catch returns null). -/
def parseTokenLocally (env : AuthEnv) (token : String) : Option Int :=
  match env.decode token with
  | none => none
  | some decoded =>
    if decoded.id = 0 then none
    else
      match decoded.exp with
      | some e => if e = 0 then some decoded.id
                  else if e < env.now then none else some decoded.id
      | none => some decoded.id

/-- The Redis token cache namespace token:{token}:user. -/
def TokenCache : Type := String → Option Int

/-- redis.setex on the token cache (TTL not modelled beyond key liveness). -/
def updateCache (cache : TokenCache) (token : String) (uid : Int) : TokenCache :=
  fun t => if t = token then some uid else cache t

/-- The UnauthorizedException thrown by AuthService.verifyToken. -/
inductive VErr where
  | authServiceUnavailable
  deriving Repr, DecidableEq

/-- Outcome of the axios GET /api/users/me call. -/
inductive RemoteOutcome where
  | success (data : Option UserInfo)
  | axiosErr (code : Option String) (status : Option Nat)
  | otherErr
  deriving Repr, DecidableEq

/-- The network-class error codes checked in verifyToken. -/
def isNetworkErrorCode : Option String → Bool
  | some c => c == "ECONNREFUSED" || c == "ETIMEDOUT" || c == "ENOTFOUND" || c == "ECONNABORTED"
  | none => false

/-- AuthService.verifyToken: cache lookup, local exp fast-check, remote call,
then the degraded-availability fallback policy in the catch block. Returns the
result (ok user / ok null / thrown UnauthorizedException) and the token cache
after the call (populated on remote success when useCache). -/
def verifyToken (env : AuthEnv) (cache : TokenCache) (token : String)
    (useCache : Bool) (remote : RemoteOutcome) :
    Except VErr (Option UserInfo) × TokenCache :=
  if token = "" then (.ok none, cache)
  else
    match (if useCache then cache token else none) with
    | some cachedUserId => (.ok (some ⟨cachedUserId, "", ""⟩), cache)
    | none =>
      match parseTokenLocally env token with
      | none => (.ok none, cache)
      | some localUserId =>
        match remote with
        | .success data =>
          match data with
          | some userInfo =>
            if userInfo.id = 0 then (.ok none, cache)
            else (.ok (some userInfo),
                  if useCache then updateCache cache token userInfo.id else cache)
          | none => (.ok none, cache)
        | .axiosErr code status =>
          if isNetworkErrorCode code then
            (if localUserId = 0 then (.error .authServiceUnavailable, cache)
             else (.ok (some ⟨localUserId, "", ""⟩), cache))
          else if status = some 401 then (.ok none, cache)
          else if status = some 403 then (.ok none, cache)
          else if status == some 500 || status == some 502 || status == some 503
                  || status == some 504 then
            (if localUserId = 0 then (.ok none, cache)
             else (.ok (some ⟨localUserId, "", ""⟩), cache))
          else
            (if localUserId = 0 then (.ok none, cache)
             else (.ok (some ⟨localUserId, "", ""⟩), cache))
        | .otherErr =>
          (if localUserId = 0 then (.ok none, cache)
           else (.ok (some ⟨localUserId, "", ""⟩), cache))

/-- AuthService.verifyTokenFast: cache lookup, else local parse. Never remote. -/
def verifyTokenFast (env : AuthEnv) (cache : TokenCache) (token : String) : Option Int :=
  if token = "" then none
  else
    match cache token with
    | some cachedUserId => some cachedUserId
    | none => parseTokenLocally env token

/-! ### Redis session cache (RedisService) -/

/-- Shared-cache state: the token cache, the presence keys user:{id}:online
(with their stored socket-id value), and the online:users set. -/
structure RedisState where
  tokenCache : TokenCache
  presence : List (Int × String)
  onlineSet : List Int

/-- setex user:{id}:online overwrites the key value (upsert on the key). -/
def upsertPresence (l : List (Int × String)) (uid : Int) (sid : String) :
    List (Int × String) :=
  match l.find? (fun e => e.1 == uid) with
  | some _ => l.map (fun e => if e.1 == uid then (e.1, sid) else e)
  | none => l ++ [(uid, sid)]

/-- sadd online:users. -/
def saddOnline (l : List Int) (uid : Int) : List Int :=
  if l.contains uid then l else l ++ [uid]

/-- RedisService.setUserOnline. -/
def setUserOnline (r : RedisState) (uid : Int) (sid : String) : RedisState :=
  { r with presence := upsertPresence r.presence uid sid,
           onlineSet := saddOnline r.onlineSet uid }

/-- RedisService.removeUserOnline. -/
def removeUserOnline (r : RedisState) (uid : Int) : RedisState :=
  { r with presence := r.presence.filter (fun e => !(e.1 == uid)),
           onlineSet := r.onlineSet.filter (fun u => !(u == uid)) }

/-- RedisService.isUserOnline: existence of the user:{id}:online key. -/
def isUserOnline (r : RedisState) (uid : Int) : Bool :=
  (r.presence.find? (fun e => e.1 == uid)).isSome

/-! ### Message store (MessagesService over PostgreSQL) -/

/-- Row of chat.chats (UNIQUE(buyer_id, seller_id); created_at not modelled). -/
structure Chat where
  id : Nat
  buyer_id : Int
  seller_id : Int
  deriving Repr, DecidableEq

/-- Row of chat.messages (created_at modelled by list position). -/
structure Message where
  id : Nat
  chat_id : Nat
  sender_id : Int
  content : String
  product_id : Option Int
  deriving Repr, DecidableEq

/-- Durable store: chats, messages, read receipts (chat.read_messages with
UNIQUE(message_id, user_id)), chat context, and id freshness counters. -/
structure DB where
  chats : List Chat
  messages : List Message
  readMessages : List (Nat × Int)
  chatContext : List (Nat × Option Int)
  nextChatId : Nat
  nextMsgId : Nat
  deriving Repr, DecidableEq

/-- Membership of (message_id, user_id) in chat.read_messages. -/
def memRead (mid : Nat) (u : Int) : List (Nat × Int) → Bool
  | [] => false
  | (m, v) :: rest => if m = mid ∧ v = u then true else memRead mid u rest

/-- INSERT INTO chat.read_messages ... ON CONFLICT (message_id, user_id) DO NOTHING. -/
def insertRead (rm : List (Nat × Int)) (mid : Nat) (u : Int) : List (Nat × Int) :=
  if memRead mid u rm then rm else rm ++ [(mid, u)]

/-- MessagesService.getChatById. -/
def getChatById (db : DB) (chatId : Nat) : Option Chat :=
  db.chats.find? (fun c => c.id == chatId)

/-- MessagesService.getChatByUsers: lookup by the unordered participant pair. -/
def getChatByUsers (db : DB) (buyerId sellerId : Int) : Option Chat :=
  db.chats.find? (fun c =>
    (c.buyer_id == buyerId && c.seller_id == sellerId) ||
    (c.buyer_id == sellerId && c.seller_id == buyerId))

/-- The INSERT INTO chat.chats ... ON CONFLICT (buyer_id, seller_id)
DO UPDATE SET buyer_id = EXCLUDED.buyer_id RETURNING * statement: the conflict
target is the ordered pair, and the no-op update returns the existing row. -/
def chatUpsert (db : DB) (buyerId sellerId : Int) : DB × Chat :=
  match db.chats.find? (fun c => c.buyer_id == buyerId && c.seller_id == sellerId) with
  | some c => (db, c)
  | none =>
    let c : Chat := ⟨db.nextChatId, buyerId, sellerId⟩
    ({ db with chats := db.chats ++ [c], nextChatId := db.nextChatId + 1 }, c)

/-- MessagesService.getChatContext. -/
def getChatContext (db : DB) (chatId : Nat) : Option (Option Int) :=
  (db.chatContext.find? (fun e => e.1 == chatId)).map (fun e => e.2)

/-- INSERT INTO chat.chat_context ... ON CONFLICT (chat_id) DO UPDATE. -/
def upsertContext (l : List (Nat × Option Int)) (chatId : Nat) (p : Option Int) :
    List (Nat × Option Int) :=
  match l.find? (fun e => e.1 == chatId) with
  | some _ => l.map (fun e => if e.1 == chatId then (e.1, p) else e)
  | none => l ++ [(chatId, p)]

/-- MessagesService.updateChatContext: no-op once the chat has messages; upsert
the context only when there is none (current_product_id null/0 counts as none). -/
def updateChatContext (db : DB) (chatId : Nat) (newProductId : Int) : DB :=
  if 0 < (db.messages.filter (fun m => m.chat_id == chatId)).length then db
  else
    match getChatContext db chatId with
    | some cp =>
      if truthyOptInt cp then db
      else { db with chatContext := upsertContext db.chatContext chatId (some newProductId) }
    | none => { db with chatContext := upsertContext db.chatContext chatId (some newProductId) }

/-- MessagesService.createProductContextMessage: skip when the latest
product-bearing message of the chat already carries this product. -/
def createProductContextMessage (db : DB) (chatId : Nat) (senderId : Int)
    (productId : Int) : DB :=
  match (db.messages.filter (fun m => m.chat_id == chatId && m.product_id.isSome)).getLast? with
  | some m =>
    if m.product_id = some productId then db
    else { db with messages := db.messages ++ [⟨db.nextMsgId, chatId, senderId, "", some productId⟩],
                   nextMsgId := db.nextMsgId + 1 }
  | none =>
    { db with messages := db.messages ++ [⟨db.nextMsgId, chatId, senderId, "", some productId⟩],
              nextMsgId := db.nextMsgId + 1 }

/-- MessagesService.createChat: the ordered-pair upsert, then the optional
product-context step (guarded by JS truthiness of productId). -/
def createChat (db : DB) (buyerId sellerId : Int) (productId : Option Int) : DB × Chat :=
  let r := chatUpsert db buyerId sellerId
  match productId with
  | some pid =>
    if pid = 0 then (r.1, r.2)
    else
      match getChatContext r.1 r.2.id with
      | some cp =>
        if truthyOptInt cp then (createProductContextMessage r.1 r.2.id buyerId pid, r.2)
        else (updateChatContext r.1 r.2.id pid, r.2)
      | none => (updateChatContext r.1 r.2.id pid, r.2)
  | none => (r.1, r.2)

/-- MessagesService.createMessage (productId || null maps 0 to null). -/
def createMessage (db : DB) (chatId : Nat) (senderId : Int) (text : String)
    (productId : Option Int) : DB × Message :=
  let pid : Option Int := match productId with
    | some p => if p = 0 then none else some p
    | none => none
  let m : Message := ⟨db.nextMsgId, chatId, senderId, text, pid⟩
  ({ db with messages := db.messages ++ [m], nextMsgId := db.nextMsgId + 1 }, m)

/-- MessagesService.getUserChats (ORDER BY created_at not modelled). -/
def getUserChats (db : DB) (userId : Int) : List Chat :=
  db.chats.filter (fun c => c.buyer_id == userId || c.seller_id == userId)

/-- MessagesService.markMessageAsRead (ON CONFLICT DO NOTHING). -/
def markMessageAsRead (db : DB) (messageId : Nat) (userId : Int) : DB :=
  { db with readMessages := insertRead db.readMessages messageId userId }

/-- MessagesService.markChatMessagesAsRead: insert a read receipt for every
message of the chat not sent by this user, skipping existing receipts. -/
def markChatMessagesAsRead (db : DB) (chatId : Nat) (userId : Int) : DB :=
  let toMark := (db.messages.filter
    (fun m => m.chat_id == chatId && !(m.sender_id == userId))).map (fun m => m.id)
  { db with readMessages := toMark.foldl (fun rm mid => insertRead rm mid userId) db.readMessages }

/-- MessagesService.getUnreadCountForChat: messages of the chat not sent by the
user and lacking a read receipt for the user. -/
def getUnreadCountForChat (db : DB) (chatId : Nat) (userId : Int) : Nat :=
  (db.messages.filter (fun m =>
    m.chat_id == chatId && !(m.sender_id == userId) &&
    !(memRead m.id userId db.readMessages))).length

/-! ### Chat gateway (ChatGateway) -/

/-- An AuthenticatedSocket: socket id plus the session-local userId/token fields. -/
structure Session where
  id : String
  userId : Option Int
  token : Option String
  deriving Repr, DecidableEq

/-- In-process gateway state: the userSockets registry and the socket.io room
membership map (fed only by explicit join calls). -/
structure GatewayState where
  userSockets : List (Int × List String)
  rooms : List (String × List String)
  deriving Repr, DecidableEq

/-- Registry read: userSockets.get(userId). -/
def getSockets (gs : GatewayState) (uid : Int) : Option (List String) :=
  (gs.userSockets.find? (fun e => e.1 == uid)).map (fun e => e.2)

/-- Registry write on connect: create the set if absent, then Set.add. -/
def addSocket (gs : GatewayState) (uid : Int) (sid : String) : GatewayState :=
  match gs.userSockets.find? (fun e => e.1 == uid) with
  | none => { gs with userSockets := gs.userSockets ++ [(uid, [sid])] }
  | some _ =>
    let us' := gs.userSockets.map
      (fun e => if e.1 == uid then (e.1, if e.2.contains sid then e.2 else e.2 ++ [sid]) else e)
    { gs with userSockets := us' }

/-- socket.join(room). -/
def joinRoom (rooms : List (String × List String)) (room : String) (sid : String) :
    List (String × List String) :=
  match rooms.find? (fun e => e.1 == room) with
  | none => rooms ++ [(room, [sid])]
  | some _ =>
    rooms.map (fun e => if e.1 == room then
      (e.1, if e.2.contains sid then e.2 else e.2 ++ [sid]) else e)

/-- Members of a socket.io room (empty when never joined). -/
def roomMembers (gs : GatewayState) (room : String) : List String :=
  ((gs.rooms.find? (fun e => e.1 == room)).map (fun e => e.2)).getD []

/-- Observable side effects of a handler, in program order. -/
inductive Effect where
  | emitSelf (sid : String) (event : String)
  | emitRoom (room : String) (event : String)
  | emitSocket (sid : String) (event : String)
  | emitAll (event : String)
  | notifyOffline (recipientId : Int) (senderId : Int) (chatId : Nat)
      (text : String) (productId : Option Int)
  | disconnect (sid : String)
  deriving Repr, DecidableEq

/-- Structured handler results. -/
inductive RResult where
  | success
  | unauthorized
  | tokenExpired
  | chatNotFound
  | accessDenied
  | failed
  | invalidToken
  | tokenRequired
  deriving Repr, DecidableEq

/-- JS String.prototype.trim, modelled over the character list (the whitespace
class is the usual space, tab, CR, LF set). -/
def jsTrim (s : String) : String :=
  ⟨((s.data.dropWhile Char.isWhitespace).reverse.dropWhile Char.isWhitespace).reverse⟩

/-- The guard shared by the per-action handlers:
if (!client.userId || !client.token). -/
def sessionAuthPresent (client : Session) : Bool :=
  truthyOptInt client.userId && truthyOptStr client.token

/-- The per-action fast check: verifyTokenFast on the stored token, failing on
falsy result or mismatch with the session user id
(if (!userId || userId !== client.userId)). -/
def fastVerifyFails (env : AuthEnv) (cache : TokenCache) (client : Session) : Bool :=
  match verifyTokenFast env cache (client.token.getD "") with
  | none => true
  | some v => v == 0 || !(client.userId == some v)

structure ConnectOut where
  gs : GatewayState
  redis : RedisState
  client : Session
  effects : List Effect

structure DisconnectOut where
  gs : GatewayState
  redis : RedisState
  effects : List Effect

structure MessageOut where
  db : DB
  effects : List Effect
  result : RResult

structure MarkReadOut where
  db : DB
  effects : List Effect
  unread : Option Nat
  result : RResult

structure RefreshOut where
  gs : GatewayState
  redis : RedisState
  client : Session
  result : RResult

/-- ChatGateway.handleConnection: handshake token (query.token || auth.token,
"" falsy), full verify, then on success: store userId/token on the session,
register in userSockets, setUserOnline, broadcast user:online, and join the
room of every chat of the user. Failures emit auth:error and disconnect. -/
def handleConnection (env : AuthEnv) (remote : RemoteOutcome) (db : DB)
    (redis : RedisState) (gs : GatewayState) (client : Session)
    (hsToken : Option String) : ConnectOut :=
  match hsToken with
  | none => ⟨gs, redis, client, [.emitSelf client.id "auth:error", .disconnect client.id]⟩
  | some tok =>
    if tok = "" then
      ⟨gs, redis, client, [.emitSelf client.id "auth:error", .disconnect client.id]⟩
    else
      let r := verifyToken env redis.tokenCache tok true remote
      match r.1 with
      | .error _ =>
        ⟨gs, { redis with tokenCache := r.2 }, client,
         [.emitSelf client.id "auth:error", .disconnect client.id]⟩
      | .ok none =>
        ⟨gs, { redis with tokenCache := r.2 }, client,
         [.emitSelf client.id "auth:error", .disconnect client.id]⟩
      | .ok (some userInfo) =>
        let client' := { client with userId := some userInfo.id, token := some tok }
        let gs1 := addSocket gs userInfo.id client.id
        let redis1 := setUserOnline { redis with tokenCache := r.2 } userInfo.id client.id
        let rooms2 := (getUserChats db userInfo.id).foldl
          (fun rs c => joinRoom rs ("chat:" ++ toString c.id) client.id) gs1.rooms
        let gs2 := { gs1 with rooms := rooms2 }
        ⟨gs2, redis1, client', [.emitAll "user:online"]⟩

/-- ChatGateway.handleDisconnect: ignore sockets without a (truthy) userId;
remove the socket from the registry entry; when the set becomes empty, drop the
entry, removeUserOnline and broadcast user:offline. -/
def handleDisconnect (redis : RedisState) (gs : GatewayState) (client : Session) :
    DisconnectOut :=
  match client.userId with
  | none => ⟨gs, redis, []⟩
  | some uid =>
    if uid = 0 then ⟨gs, redis, []⟩
    else
      match gs.userSockets.find? (fun e => e.1 == uid) with
      | none => ⟨gs, redis, []⟩
      | some ent =>
        let remaining := ent.2.filter (fun s => !(s == client.id))
        if remaining.length = 0 then
          let us' := gs.userSockets.filter (fun e => !(e.1 == uid))
          ⟨{ gs with userSockets := us' }, removeUserOnline redis uid,
           [.emitAll "user:offline"]⟩
        else
          let us' := gs.userSockets.map (fun e => if e.1 == uid then (e.1, remaining) else e)
          ⟨{ gs with userSockets := us' }, redis, []⟩

/-- ChatGateway.handleMessage (message:send): auth guard, fast verify,
participant check, persist, recompute recipient unread, broadcast message:new
to the chat room, push unread:updated to the recipient's own sockets, then the
offline-notification dispatch when the recipient has no presence key and the
text is non-blank. -/
def handleMessage (env : AuthEnv) (db : DB) (redis : RedisState) (gs : GatewayState)
    (client : Session) (chatId : Nat) (text : String) (productId : Option Int) :
    MessageOut :=
  if !(sessionAuthPresent client) then
    ⟨db, [.emitSelf client.id "auth:error"], .unauthorized⟩
  else if fastVerifyFails env redis.tokenCache client then
    ⟨db, [.emitSelf client.id "auth:token-expired"], .tokenExpired⟩
  else
    let uid := client.userId.getD 0
    match getChatById db chatId with
    | none => ⟨db, [], .chatNotFound⟩
    | some chat =>
      if !(chat.buyer_id == uid || chat.seller_id == uid) then ⟨db, [], .accessDenied⟩
      else
        let recipientId := if chat.buyer_id = uid then chat.seller_id else chat.buyer_id
        let r := createMessage db chatId uid text productId
        let e1 : List Effect := [.emitRoom ("chat:" ++ toString chatId) "message:new"]
        let e2 : List Effect := match getSockets gs recipientId with
          | some socks => socks.map (fun sid => Effect.emitSocket sid "unread:updated")
          | none => []
        let e3 : List Effect :=
          if isUserOnline redis recipientId = false ∧ text ≠ "" ∧ 0 < (jsTrim text).length then
            [.notifyOffline recipientId uid chatId text productId]
          else []
        ⟨r.1, e1 ++ e2 ++ e3, .success⟩

/-- ChatGateway.handleMarkMessagesAsRead (message:mark-read): auth guard, fast
verify, combined not-found/participant check, per-id or chat-wide receipt
writes, recompute the caller's unread count, emit unread:updated to the caller
and message:read to the socket.io room user:{recipientId}. -/
def handleMarkMessagesAsRead (env : AuthEnv) (db : DB) (redis : RedisState)
    (client : Session) (chatId : Nat) (messageIds : Option (List Nat)) : MarkReadOut :=
  if !(sessionAuthPresent client) then
    ⟨db, [.emitSelf client.id "auth:error"], none, .unauthorized⟩
  else if fastVerifyFails env redis.tokenCache client then
    ⟨db, [.emitSelf client.id "auth:token-expired"], none, .tokenExpired⟩
  else
    let uid := client.userId.getD 0
    match getChatById db chatId with
    | none => ⟨db, [], none, .accessDenied⟩
    | some chat =>
      if !(chat.buyer_id == uid || chat.seller_id == uid) then ⟨db, [], none, .accessDenied⟩
      else
        let db1 := match messageIds with
          | some ids =>
            if 0 < ids.length then ids.foldl (fun d mid => markMessageAsRead d mid uid) db
            else markChatMessagesAsRead db chatId uid
          | none => markChatMessagesAsRead db chatId uid
        let unread := getUnreadCountForChat db1 chatId uid
        let recipientId := if chat.buyer_id = uid then chat.seller_id else chat.buyer_id
        ⟨db1,
         [.emitSelf client.id "unread:updated",
          .emitRoom ("user:" ++ toString recipientId) "message:read"],
         some unread, .success⟩

/-- ChatGateway.handleRefreshToken (auth:refresh-token): full verify of the new
token; on success overwrite the session userId/token and setUserOnline. The
userSockets registry is not touched on any path. -/
def handleRefreshToken (env : AuthEnv) (remote : RemoteOutcome) (redis : RedisState)
    (gs : GatewayState) (client : Session) (tok : String) : RefreshOut :=
  if tok = "" then ⟨gs, redis, client, .tokenRequired⟩
  else
    let r := verifyToken env redis.tokenCache tok true remote
    match r.1 with
    | .error _ => ⟨gs, { redis with tokenCache := r.2 }, client, .failed⟩
    | .ok none => ⟨gs, { redis with tokenCache := r.2 }, client, .invalidToken⟩
    | .ok (some userInfo) =>
      let client' := { client with userId := some userInfo.id, token := some tok }
      let redis' := setUserOnline { redis with tokenCache := r.2 } userInfo.id client.id
      ⟨gs, redis', client', .success⟩

/-- Number of offline-notification dispatch attempts among a handler's effects. -/
def countNotify (effs : List Effect) : Nat :=
  (effs.filter (fun e => match e with
    | .notifyOffline _ _ _ _ _ => true
    | _ => false)).length

/-! ## Supporting lemmas -/

theorem parseTokenLocally_ne_zero (env : AuthEnv) (token : String) (uid : Int)
    (h : parseTokenLocally env token = some uid) : uid ≠ 0 := by
  unfold parseTokenLocally at h
  cases hd : env.decode token with
  | none => rw [hd] at h; exact absurd h (by simp)
  | some d =>
    simp only [hd] at h
    by_cases hid : d.id = 0
    · rw [if_pos hid] at h; exact absurd h (by simp)
    · rw [if_neg hid] at h
      cases hexp : d.exp with
      | none => simp only [hexp] at h; injection h with h; omega
      | some e =>
        simp only [hexp] at h
        by_cases he : e = 0
        · rw [if_pos he] at h; injection h with h; omega
        · rw [if_neg he] at h
          by_cases hlt : e < env.now
          · rw [if_pos hlt] at h; exact absurd h (by simp)
          · rw [if_neg hlt] at h; injection h with h; omega

theorem parseTokenLocally_expired (env : AuthEnv) (token : String) (p : JWTPayload)
    (e : Int) (hdec : env.decode token = some p) (hexp : p.exp = some e)
    (he0 : e ≠ 0) (hlt : e < env.now) : parseTokenLocally env token = none := by
  unfold parseTokenLocally
  simp only [hdec]
  by_cases hid : p.id = 0
  · rw [if_pos hid]
  · rw [if_neg hid]
    simp only [hexp]
    rw [if_neg he0, if_pos hlt]

/-! ## Claim theorems -/

/-- C4, counterexample: the claim says every token with an exp claim in the past
yields absent; but a token whose exp claim is 0 (the epoch, strictly in the past
of any positive clock) skips the expiry check because 0 is falsy in JS, and the
subject id 7 is returned. -/
theorem c4_counterexample :
    parseTokenLocally ⟨fun _ => some ⟨7, some 0⟩, 1000000000⟩ "t" = some 7
    ∧ (0 : Int) < 1000000000 := by
  exact ⟨rfl, by decide⟩

/-- C4 (amended): for a decodable token with a nonzero subject id whose exp
claim is absent, zero, or not earlier than now, parseTokenLocally returns the
subject id; for a decodable token whose nonzero exp claim is earlier than now,
or whose subject id is missing (zero, falsy), it returns absent; for an
undecodable token it returns absent. Totality of the Lean function models the
no-exception contract. -/
theorem c4_parse_token_locally (env : AuthEnv) (token : String) (p : JWTPayload) :
    (env.decode token = some p → p.id ≠ 0 →
      (p.exp = none ∨ p.exp = some 0 ∨ (∃ e, p.exp = some e ∧ ¬ e < env.now)) →
      parseTokenLocally env token = some p.id)
    ∧ (env.decode token = some p → p.id = 0 → parseTokenLocally env token = none)
    ∧ (env.decode token = some p → ∀ e, p.exp = some e → e ≠ 0 → e < env.now →
      parseTokenLocally env token = none)
    ∧ (env.decode token = none → parseTokenLocally env token = none) := by
  refine ⟨?_, ?_, ?_, ?_⟩
  · intro hdec hid hcase
    unfold parseTokenLocally
    simp only [hdec]
    rw [if_neg hid]
    rcases hcase with h0 | h0 | ⟨e, he, hlt⟩
    · simp only [h0]
    · simp [h0]
    · simp only [he]
      by_cases he0 : e = 0
      · rw [if_pos he0]
      · rw [if_neg he0, if_neg hlt]
  · intro hdec hid
    unfold parseTokenLocally
    simp only [hdec]
    rw [if_pos hid]
  · intro hdec e he he0 hlt
    exact parseTokenLocally_expired env token p e hdec he he0 hlt
  · intro hdec
    unfold parseTokenLocally
    rw [hdec]

/-- C4 witness: a token decoding to subject 5 with exp 100 in the future of
clock 50 yields subject 5. -/
theorem c4_witness :
    parseTokenLocally ⟨fun _ => some ⟨5, some 100⟩, 50⟩ "t" = some 5 := by
  exact (c4_parse_token_locally ⟨fun _ => some ⟨5, some 100⟩, 50⟩ "t" ⟨5, some 100⟩).1
    rfl (by decide) (Or.inr (Or.inr ⟨100, rfl, by decide⟩))

/-- C1, counterexample: a token whose exp claim (10) lies strictly in the past
of the clock (1000) but which has a live tokenUser cache entry: verifyTokenFast
returns the cached id 7 rather than absent, and verifyToken returns a user
identity on the token-cache path. The cache hit is trusted past the token's own
expiry claim. -/
theorem c1_counterexample :
    ((10 : Int) < 1000)
    ∧ verifyTokenFast ⟨fun _ => some ⟨7, some 10⟩, 1000⟩
        (fun t => if t = "tok" then some 7 else none) "tok" = some 7
    ∧ (verifyToken ⟨fun _ => some ⟨7, some 10⟩, 1000⟩
        (fun t => if t = "tok" then some 7 else none) "tok" true .otherErr).1 =
        .ok (some ⟨7, "", ""⟩) := by
  exact ⟨by decide, rfl, rfl⟩

/-- C1 (amended): a tokenUser cache hit is trusted for the cache TTL regardless
of the token's own expiry claim; only in the absence of a cache entry does a
locally expired token (nonzero exp claim earlier than now) make verifyTokenFast
return absent and verifyToken return null, whatever the remote outcome. -/
theorem c1_expired_rejected_without_cache_hit (env : AuthEnv) (cache : TokenCache)
    (token : String) (p : JWTPayload) (e : Int) (remote : RemoteOutcome)
    (hmiss : cache token = none)
    (hdec : env.decode token = some p) (hexp : p.exp = some e)
    (he0 : e ≠ 0) (hlt : e < env.now) :
    verifyTokenFast env cache token = none
    ∧ (verifyToken env cache token true remote).1 = .ok none := by
  have hp : parseTokenLocally env token = none :=
    parseTokenLocally_expired env token p e hdec hexp he0 hlt
  constructor
  · unfold verifyTokenFast
    by_cases ht : token = ""
    · rw [if_pos ht]
    · rw [if_neg ht]
      simp only [hmiss, hp]
  · unfold verifyToken
    by_cases ht : token = ""
    · rw [if_pos ht]
    · rw [if_neg ht]
      simp [hmiss, hp]

/-- C1 witness: concrete instance of the amended claim, with an empty cache and
a token whose exp claim 10 is past the clock 1000. -/
theorem c1_witness :
    verifyTokenFast ⟨fun _ => some ⟨7, some 10⟩, 1000⟩ (fun _ => none) "tok" = none
    ∧ (verifyToken ⟨fun _ => some ⟨7, some 10⟩, 1000⟩ (fun _ => none) "tok" true
        .otherErr).1 = .ok none := by
  exact c1_expired_rejected_without_cache_hit ⟨fun _ => some ⟨7, some 10⟩, 1000⟩
    (fun _ => none) "tok" ⟨7, some 10⟩ 10 .otherErr rfl rfl rfl (by decide) (by decide)

/-- C2 (confirmed): on a token-cache miss, when the remote call answers with an
HTTP 401 or 403 (so the axios error code is not a network-class code),
verifyToken returns null, regardless of the local fast-check outcome. -/
theorem c2_definitive_rejection (env : AuthEnv) (cache : TokenCache) (token : String)
    (code : Option String) (s : Nat)
    (hmiss : cache token = none)
    (hnc : isNetworkErrorCode code = false)
    (hs : s = 401 ∨ s = 403) :
    (verifyToken env cache token true (.axiosErr code (some s))).1 = .ok none := by
  unfold verifyToken
  by_cases ht : token = ""
  · rw [if_pos ht]
  · rw [if_neg ht]
    simp only [if_pos rfl, hmiss]
    cases hp : parseTokenLocally env token with
    | none => rfl
    | some uid =>
      rcases hs with rfl | rfl <;> simp [hnc]

/-- C2 witness: empty cache, decodable unexpired token, remote answers 401:
result is null. -/
theorem c2_witness :
    (verifyToken ⟨fun _ => some ⟨5, none⟩, 0⟩ (fun _ => none) "t" true
      (.axiosErr none (some 401))).1 = .ok none := by
  exact c2_definitive_rejection ⟨fun _ => some ⟨5, none⟩, 0⟩ (fun _ => none) "t"
    none 401 rfl rfl (Or.inl rfl)

/-- C3 (confirmed): on a token-cache miss, when the remote call fails with a
network-class error code (ECONNREFUSED, ETIMEDOUT, ENOTFOUND, ECONNABORTED),
verifyToken returns the locally decoded subject id exactly when
parseTokenLocally succeeds on the token, and returns null when it does not. -/
theorem c3_network_fallback (env : AuthEnv) (cache : TokenCache) (token : String)
    (code : Option String) (status : Option Nat)
    (htok : token ≠ "")
    (hmiss : cache token = none)
    (hnet : isNetworkErrorCode code = true) :
    (verifyToken env cache token true (.axiosErr code status)).1 =
      .ok ((parseTokenLocally env token).map (fun uid => ⟨uid, "", ""⟩)) := by
  unfold verifyToken
  rw [if_neg htok]
  simp only [if_pos rfl, hmiss]
  cases hp : parseTokenLocally env token with
  | none => rfl
  | some uid =>
    have h0 : uid ≠ 0 := parseTokenLocally_ne_zero env token uid hp
    simp [hnet, h0]

/-- C3 witness: empty cache, token decoding to subject 5, connection refused:
the result is the fallback identity with id 5, matching the fast-check. -/
theorem c3_witness :
    (verifyToken ⟨fun _ => some ⟨5, none⟩, 0⟩ (fun _ => none) "t" true
      (.axiosErr (some "ECONNREFUSED") none)).1 = .ok (some ⟨5, "", ""⟩) := by
  have h := c3_network_fallback ⟨fun _ => some ⟨5, none⟩, 0⟩ (fun _ => none) "t"
    (some "ECONNREFUSED") none (by decide) rfl rfl
  exact h.trans (by rfl)

/-! ## Association-list lemmas for the registry, rooms and presence keys -/

theorem find?_append_none {α : Type} (l₁ l₂ : List α) (p : α → Bool)
    (h : l₁.find? p = none) : (l₁ ++ l₂).find? p = l₂.find? p := by
  induction l₁ with
  | nil => simp
  | cons a t ih =>
    rw [List.cons_append]
    cases hpa : p a with
    | true => rw [List.find?_cons_of_pos _ hpa] at h; exact absurd h (by simp)
    | false =>
      have hn : ¬ p a = true := by simp [hpa]
      rw [List.find?_cons_of_neg _ hn] at h
      rw [List.find?_cons_of_neg _ hn]
      exact ih h

theorem find?_cons_true {α : Type} (p : α → Bool) (a : α) (l : List α)
    (h : p a = true) : (a :: l).find? p = some a := by
  simp [List.find?, h]

theorem find?_cons_false {α : Type} (p : α → Bool) (a : α) (l : List α)
    (h : p a = false) : (a :: l).find? p = l.find? p := by
  simp [List.find?, h]

theorem find?_key_map_update {β : Type} (l : List (Int × β)) (uid : Int) (v : β)
    (ent : Int × β) (h : l.find? (fun e => e.1 == uid) = some ent) :
    (l.map (fun e => if e.1 == uid then (e.1, v) else e)).find? (fun e => e.1 == uid)
      = some (ent.1, v) := by
  induction l with
  | nil => exact absurd h (by simp)
  | cons a t ih =>
    cases hpa : (a.1 == uid) with
    | true =>
      rw [find?_cons_true _ a t hpa] at h
      injection h with h
      subst h
      rw [List.map_cons, if_pos hpa]
      exact find?_cons_true _ _ _ hpa
    | false =>
      rw [find?_cons_false _ a t hpa] at h
      rw [List.map_cons, if_neg (by simp [hpa])]
      rw [find?_cons_false _ a _ hpa]
      exact ih h

theorem find?_key_filter_ne {β : Type} (l : List (Int × β)) (uid : Int) :
    (l.filter (fun e => !(e.1 == uid))).find? (fun e => e.1 == uid) = none := by
  rw [List.find?_eq_none]
  intro x hx
  have h2 := (List.mem_filter.mp hx).2
  simp only [Bool.not_eq_true'] at h2
  simp [h2]

theorem isUserOnline_setUserOnline_self (r : RedisState) (uid : Int) (sid : String) :
    isUserOnline (setUserOnline r uid sid) uid = true := by
  unfold isUserOnline setUserOnline upsertPresence
  cases hf : r.presence.find? (fun e => e.1 == uid) with
  | some ent =>
    simp only [hf]
    rw [find?_key_map_update r.presence uid sid ent hf]
    rfl
  | none =>
    simp only [hf]
    rw [find?_append_none _ _ _ hf]
    simp

theorem isUserOnline_removeUserOnline_self (r : RedisState) (uid : Int) :
    isUserOnline (removeUserOnline r uid) uid = false := by
  unfold isUserOnline removeUserOnline
  rw [find?_key_filter_ne]
  rfl

/-- C5 (confirmed): presence lifecycle. First conjunct: a successful
connect-time full verification leads handleConnection to set the presence key
of the verified user. Second conjunct: when the disconnecting socket is not the
user's last registered one, handleDisconnect leaves the presence keys untouched
and keeps the registry entry with the remaining sockets; when it is the last
one, handleDisconnect clears the presence key and drops the registry entry. -/
theorem c5_presence_lifecycle (env : AuthEnv) (remote : RemoteOutcome) (db : DB)
    (redis : RedisState) (gs : GatewayState) (client : Session) (tok : String)
    (uid : Int) (ent : Int × List String) :
    (∀ u : UserInfo, (verifyToken env redis.tokenCache tok true remote).1 = .ok (some u) →
      isUserOnline (handleConnection env remote db redis gs client (some tok)).redis u.id
        = true)
    ∧ (client.userId = some uid → uid ≠ 0 →
        gs.userSockets.find? (fun e => e.1 == uid) = some ent →
        (ent.2.filter (fun s => !(s == client.id)) ≠ [] →
          (handleDisconnect redis gs client).redis.presence = redis.presence ∧
          (handleDisconnect redis gs client).gs.userSockets.find? (fun e => e.1 == uid)
            = some (ent.1, ent.2.filter (fun s => !(s == client.id))))
        ∧ (ent.2.filter (fun s => !(s == client.id)) = [] →
          isUserOnline (handleDisconnect redis gs client).redis uid = false ∧
          (handleDisconnect redis gs client).gs.userSockets.find? (fun e => e.1 == uid)
            = none)) := by
  constructor
  · intro u hok
    by_cases ht : tok = ""
    · subst ht
      rw [verifyToken] at hok
      rw [if_pos rfl] at hok
      exact absurd hok (by simp)
    · simp only [handleConnection]
      rw [if_neg ht]
      simp only [hok]
      exact isUserOnline_setUserOnline_self _ _ _
  · intro hcu h0 hfind
    constructor
    · intro hne
      unfold handleDisconnect
      simp only [hcu]
      rw [if_neg h0]
      simp only [hfind]
      rw [if_neg (fun h => hne (List.length_eq_zero.mp h))]
      refine ⟨rfl, ?_⟩
      exact find?_key_map_update gs.userSockets uid _ ent hfind
    · intro heq
      unfold handleDisconnect
      simp only [hcu]
      rw [if_neg h0]
      simp only [hfind]
      rw [if_pos (by rw [heq]; rfl)]
      exact ⟨isUserOnline_removeUserOnline_self _ _, find?_key_filter_ne _ _⟩

/-- C5 witness: user 1 authenticates on socket a (presence becomes set); with
sockets a and b registered, disconnecting a keeps presence and leaves socket b
registered; with only b registered, disconnecting b clears presence and drops
the registry entry. -/
theorem c5_witness :
    isUserOnline (handleConnection ⟨fun _ => some ⟨1, none⟩, 0⟩
        (.success (some ⟨1, "", ""⟩)) ⟨[], [], [], [], 0, 0⟩ ⟨fun _ => none, [], []⟩
        ⟨[], []⟩ ⟨"a", none, none⟩ (some "t")).redis 1 = true
    ∧ (handleDisconnect ⟨fun _ => none, [(1, "a")], [1]⟩ ⟨[(1, ["a", "b"])], []⟩
        ⟨"a", some 1, some "t"⟩).redis.presence = [(1, "a")]
    ∧ (handleDisconnect ⟨fun _ => none, [(1, "a")], [1]⟩ ⟨[(1, ["a", "b"])], []⟩
        ⟨"a", some 1, some "t"⟩).gs.userSockets.find? (fun e => e.1 == (1 : Int))
        = some (1, ["b"])
    ∧ isUserOnline (handleDisconnect ⟨fun _ => none, [(1, "b")], [1]⟩ ⟨[(1, ["b"])], []⟩
        ⟨"b", some 1, some "t"⟩).redis 1 = false
    ∧ (handleDisconnect ⟨fun _ => none, [(1, "b")], [1]⟩ ⟨[(1, ["b"])], []⟩
        ⟨"b", some 1, some "t"⟩).gs.userSockets.find? (fun e => e.1 == (1 : Int))
        = none := by
  refine ⟨?_, ?_, ?_, ?_, ?_⟩
  · exact (c5_presence_lifecycle ⟨fun _ => some ⟨1, none⟩, 0⟩
      (.success (some ⟨1, "", ""⟩)) ⟨[], [], [], [], 0, 0⟩ ⟨fun _ => none, [], []⟩
      ⟨[], []⟩ ⟨"a", none, none⟩ "t" 1 (1, ["a"])).1 ⟨1, "", ""⟩ rfl
  · exact (((c5_presence_lifecycle ⟨fun _ => none, 0⟩ .otherErr ⟨[], [], [], [], 0, 0⟩
      ⟨fun _ => none, [(1, "a")], [1]⟩ ⟨[(1, ["a", "b"])], []⟩ ⟨"a", some 1, some "t"⟩
      "t" 1 (1, ["a", "b"])).2 rfl (by decide) rfl).1 (by decide)).1
  · exact (((c5_presence_lifecycle ⟨fun _ => none, 0⟩ .otherErr ⟨[], [], [], [], 0, 0⟩
      ⟨fun _ => none, [(1, "a")], [1]⟩ ⟨[(1, ["a", "b"])], []⟩ ⟨"a", some 1, some "t"⟩
      "t" 1 (1, ["a", "b"])).2 rfl (by decide) rfl).1 (by decide)).2
  · exact (((c5_presence_lifecycle ⟨fun _ => none, 0⟩ .otherErr ⟨[], [], [], [], 0, 0⟩
      ⟨fun _ => none, [(1, "b")], [1]⟩ ⟨[(1, ["b"])], []⟩ ⟨"b", some 1, some "t"⟩
      "t" 1 (1, ["b"])).2 rfl (by decide) rfl).2 (by decide)).1
  · exact (((c5_presence_lifecycle ⟨fun _ => none, 0⟩ .otherErr ⟨[], [], [], [], 0, 0⟩
      ⟨fun _ => none, [(1, "b")], [1]⟩ ⟨[(1, ["b"])], []⟩ ⟨"b", some 1, some "t"⟩
      "t" 1 (1, ["b"])).2 rfl (by decide) rfl).2 (by decide)).2

/-- C10 (confirmed): the auth:refresh-token handler never changes the
userSockets registry, on any path; on a successful full verification of the new
token (for any user id, equal to the session's previous one or not) it
overwrites the session's stored user id and token and refreshes the presence
key of the newly verified user. -/
theorem c10_refresh_token_registry_frame (env : AuthEnv) (remote : RemoteOutcome)
    (redis : RedisState) (gs : GatewayState) (client : Session) (tok : String) :
    (handleRefreshToken env remote redis gs client tok).gs = gs
    ∧ (∀ u : UserInfo,
        (verifyToken env redis.tokenCache tok true remote).1 = .ok (some u) →
        (handleRefreshToken env remote redis gs client tok).client.userId = some u.id
        ∧ (handleRefreshToken env remote redis gs client tok).client.token = some tok
        ∧ isUserOnline (handleRefreshToken env remote redis gs client tok).redis u.id
            = true) := by
  constructor
  · unfold handleRefreshToken
    by_cases ht : tok = ""
    · rw [if_pos ht]
    · rw [if_neg ht]
      cases h : (verifyToken env redis.tokenCache tok true remote).1 with
      | error e => simp only [h]
      | ok o => cases o with
        | none => simp only [h]
        | some u => simp only [h]
  · intro u hok
    by_cases ht : tok = ""
    · subst ht
      rw [verifyToken] at hok
      rw [if_pos rfl] at hok
      exact absurd hok (by simp)
    · unfold handleRefreshToken
      rw [if_neg ht]
      simp only [hok]
      refine ⟨by trivial, by trivial, ?_⟩
      exact isUserOnline_setUserOnline_self _ _ _

/-- C10 witness: a socket registered under user 1 refreshes with a token that
verifies as user 9: the registry is unchanged, the session now stores user 9
and the new token, and user 9's presence key is set. -/
theorem c10_witness :
    (handleRefreshToken ⟨fun _ => some ⟨9, none⟩, 0⟩ (.success (some ⟨9, "", ""⟩))
        ⟨fun _ => none, [(1, "sA")], [1]⟩ ⟨[(1, ["sA"])], []⟩ ⟨"sA", some 1, some "old"⟩
        "new").gs = ⟨[(1, ["sA"])], []⟩
    ∧ (handleRefreshToken ⟨fun _ => some ⟨9, none⟩, 0⟩ (.success (some ⟨9, "", ""⟩))
        ⟨fun _ => none, [(1, "sA")], [1]⟩ ⟨[(1, ["sA"])], []⟩ ⟨"sA", some 1, some "old"⟩
        "new").client.userId = some 9
    ∧ (handleRefreshToken ⟨fun _ => some ⟨9, none⟩, 0⟩ (.success (some ⟨9, "", ""⟩))
        ⟨fun _ => none, [(1, "sA")], [1]⟩ ⟨[(1, ["sA"])], []⟩ ⟨"sA", some 1, some "old"⟩
        "new").client.token = some "new"
    ∧ isUserOnline (handleRefreshToken ⟨fun _ => some ⟨9, none⟩, 0⟩
        (.success (some ⟨9, "", ""⟩)) ⟨fun _ => none, [(1, "sA")], [1]⟩
        ⟨[(1, ["sA"])], []⟩ ⟨"sA", some 1, some "old"⟩ "new").redis 9 = true := by
  have h := c10_refresh_token_registry_frame ⟨fun _ => some ⟨9, none⟩, 0⟩
    (.success (some ⟨9, "", ""⟩)) ⟨fun _ => none, [(1, "sA")], [1]⟩ ⟨[(1, ["sA"])], []⟩
    ⟨"sA", some 1, some "old"⟩ "new"
  have h2 := h.2 ⟨9, "", ""⟩ rfl
  exact ⟨h.1, h2.1, h2.2.1, h2.2.2⟩

/-! ## Chat-creation lemmas -/

theorem updateChatContext_chats (db : DB) (c : Nat) (p : Int) :
    (updateChatContext db c p).chats = db.chats := by
  unfold updateChatContext
  repeat' split
  all_goals rfl

theorem createProductContextMessage_chats (db : DB) (c : Nat) (s p : Int) :
    (createProductContextMessage db c s p).chats = db.chats := by
  unfold createProductContextMessage
  repeat' split
  all_goals rfl

theorem createChat_chats (db : DB) (a b : Int) (pid : Option Int) :
    (createChat db a b pid).1.chats = (chatUpsert db a b).1.chats := by
  unfold createChat
  cases pid with
  | none => rfl
  | some p =>
    dsimp only
    split
    · rfl
    · split
      · split
        · exact createProductContextMessage_chats _ _ _ _
        · exact updateChatContext_chats _ _ _
      · exact updateChatContext_chats _ _ _

theorem createChat_snd (db : DB) (a b : Int) (pid : Option Int) :
    (createChat db a b pid).2 = (chatUpsert db a b).2 := by
  unfold createChat
  cases pid with
  | none => rfl
  | some p =>
    dsimp only
    repeat' split
    all_goals rfl

theorem chatUpsert_find (db : DB) (a b : Int) :
    (chatUpsert db a b).1.chats.find? (fun c => c.buyer_id == a && c.seller_id == b)
      = some (chatUpsert db a b).2 := by
  unfold chatUpsert
  cases hf : db.chats.find? (fun c => c.buyer_id == a && c.seller_id == b) with
  | some c => simp only [hf]
  | none =>
    simp only [hf]
    rw [find?_append_none _ _ _ hf]
    exact find?_cons_true _ _ _ (by simp)

theorem chatUpsert_of_find (db : DB) (a b : Int) (c : Chat)
    (h : db.chats.find? (fun ch => ch.buyer_id == a && ch.seller_id == b) = some c) :
    chatUpsert db a b = (db, c) := by
  unfold chatUpsert
  simp only [h]

/-- C7, counterexample: from an empty store, createChat(buyerId 1, sellerId 2)
followed by createChat(buyerId 2, sellerId 1) creates a second chat row (the
ON CONFLICT target is the ordered pair), instead of fetching the existing one:
the two returned chats differ and the store holds two chats. -/
theorem c7_counterexample :
    (createChat (createChat ⟨[], [], [], [], 0, 0⟩ 1 2 none).1 2 1 none).2 ≠
        (createChat ⟨[], [], [], [], 0, 0⟩ 1 2 none).2
    ∧ (createChat (createChat ⟨[], [], [], [], 0, 0⟩ 1 2 none).1 2 1 none).1.chats.length
        = 2 := by
  decide

/-- C7 (amended): chat creation is idempotent keyed by the ORDERED
(buyerId, sellerId) pair: repeating createChat with the same orientation
returns the same chat row and leaves the chats table unchanged; the swapped
orientation is a different key and creates a distinct chat. -/
theorem c7_ordered_pair_idempotent (db : DB) (a b : Int) (pid : Option Int) :
    (createChat (createChat db a b pid).1 a b pid).2 = (createChat db a b pid).2
    ∧ (createChat (createChat db a b pid).1 a b pid).1.chats
        = (createChat db a b pid).1.chats := by
  have h1 : (createChat db a b pid).1.chats.find?
      (fun c => c.buyer_id == a && c.seller_id == b) = some (createChat db a b pid).2 := by
    rw [createChat_chats, createChat_snd]
    exact chatUpsert_find db a b
  have h2 : chatUpsert (createChat db a b pid).1 a b
      = ((createChat db a b pid).1, (createChat db a b pid).2) :=
    chatUpsert_of_find _ a b _ h1
  constructor
  · rw [createChat_snd, h2]
  · rw [createChat_chats, h2]

/-! ## Read-receipt lemmas -/

theorem memRead_append (mid : Nat) (u : Int) (l₁ l₂ : List (Nat × Int)) :
    memRead mid u (l₁ ++ l₂) = (memRead mid u l₁ || memRead mid u l₂) := by
  induction l₁ with
  | nil => simp [memRead]
  | cons a t ih =>
    obtain ⟨m, v⟩ := a
    rw [List.cons_append]
    by_cases h : m = mid ∧ v = u
    · simp [memRead, h]
    · simp [memRead, h, ih]

theorem memRead_insertRead_mono (mid : Nat) (u : Int) (rm : List (Nat × Int))
    (a : Nat) (b : Int) (h : memRead mid u rm = true) :
    memRead mid u (insertRead rm a b) = true := by
  unfold insertRead
  split
  · exact h
  · rw [memRead_append, h, Bool.true_or]

theorem memRead_insertRead_self (rm : List (Nat × Int)) (a : Nat) (b : Int) :
    memRead a b (insertRead rm a b) = true := by
  unfold insertRead
  split
  · assumption
  · rw [memRead_append]
    have hm : memRead a b [(a, b)] = true := by simp [memRead]
    rw [hm, Bool.or_true]

theorem foldl_insertRead_mono (u : Int) (l : List Nat) (rm : List (Nat × Int))
    (mid : Nat) (h : memRead mid u rm = true) :
    memRead mid u (l.foldl (fun rm m => insertRead rm m u) rm) = true := by
  induction l generalizing rm with
  | nil => exact h
  | cons a t ih =>
    rw [List.foldl_cons]
    exact ih _ (memRead_insertRead_mono mid u rm a u h)

theorem foldl_insertRead_mem (u : Int) (l : List Nat) (rm : List (Nat × Int))
    (mid : Nat) (h : mid ∈ l) :
    memRead mid u (l.foldl (fun rm m => insertRead rm m u) rm) = true := by
  revert h
  induction l generalizing rm with
  | nil => intro h; cases h
  | cons a t ih =>
    intro h
    rw [List.foldl_cons]
    rcases List.mem_cons.mp h with rfl | hm
    · exact foldl_insertRead_mono u t _ mid (memRead_insertRead_self rm mid u)
    · exact ih _ hm

theorem foldl_insertRead_noop (u : Int) (l : List Nat) (rm : List (Nat × Int))
    (h : ∀ mid ∈ l, memRead mid u rm = true) :
    l.foldl (fun rm m => insertRead rm m u) rm = rm := by
  induction l with
  | nil => rfl
  | cons a t ih =>
    rw [List.foldl_cons]
    have ha : insertRead rm a u = rm := by
      unfold insertRead
      rw [if_pos (h a (List.mem_cons_self a t))]
    rw [ha]
    exact ih (fun mid hm => h mid (List.mem_cons_of_mem a hm))

theorem markChatMessagesAsRead_covers (db : DB) (chatId : Nat) (userId : Int)
    (m : Message) (hm : m ∈ db.messages)
    (hcond : (m.chat_id == chatId && !(m.sender_id == userId)) = true) :
    memRead m.id userId (markChatMessagesAsRead db chatId userId).readMessages = true := by
  unfold markChatMessagesAsRead
  exact foldl_insertRead_mem userId _ db.readMessages m.id
    (List.mem_map.mpr ⟨m, List.mem_filter.mpr ⟨hm, hcond⟩, rfl⟩)

theorem markChatMessagesAsRead_of_covered (db : DB) (chatId : Nat) (userId : Int)
    (h : ∀ mid ∈ (db.messages.filter
        (fun m => m.chat_id == chatId && !(m.sender_id == userId))).map (fun m => m.id),
      memRead mid userId db.readMessages = true) :
    markChatMessagesAsRead db chatId userId = db := by
  unfold markChatMessagesAsRead
  dsimp only
  rw [foldl_insertRead_noop _ _ _ h]

/-- C9 (confirmed): the chat-wide mark-messages-read operation is total (never
errors), drives the caller's unread count for the chat to 0, and is idempotent:
a second invocation leaves the store unchanged and the unread count is 0 after
each invocation. -/
theorem c9_mark_read_idempotent (db : DB) (chatId : Nat) (userId : Int) :
    getUnreadCountForChat (markChatMessagesAsRead db chatId userId) chatId userId = 0
    ∧ markChatMessagesAsRead (markChatMessagesAsRead db chatId userId) chatId userId
        = markChatMessagesAsRead db chatId userId
    ∧ getUnreadCountForChat (markChatMessagesAsRead
        (markChatMessagesAsRead db chatId userId) chatId userId) chatId userId = 0 := by
  have hmsg : (markChatMessagesAsRead db chatId userId).messages = db.messages := rfl
  have h1 : getUnreadCountForChat (markChatMessagesAsRead db chatId userId) chatId userId
      = 0 := by
    unfold getUnreadCountForChat
    rw [List.length_eq_zero, hmsg, List.filter_eq_nil_iff]
    intro m hm hp
    rw [Bool.and_eq_true, Bool.and_eq_true] at hp
    have hc := markChatMessagesAsRead_covers db chatId userId m hm
      (by rw [Bool.and_eq_true]; exact hp.1)
    have hb := hp.2
    rw [hc] at hb
    exact absurd hb (by simp)
  have h2 : markChatMessagesAsRead (markChatMessagesAsRead db chatId userId) chatId userId
      = markChatMessagesAsRead db chatId userId := by
    apply markChatMessagesAsRead_of_covered
    intro mid hmid
    rw [hmsg] at hmid
    rcases List.mem_map.mp hmid with ⟨m, hmem, rfl⟩
    exact markChatMessagesAsRead_covers db chatId userId m
      (List.mem_filter.mp hmem).1 (List.mem_filter.mp hmem).2
  refine ⟨h1, h2, ?_⟩
  rw [h2]
  exact h1

/-! ## Offline-notification lemmas -/

theorem countNotify_append (l₁ l₂ : List Effect) :
    countNotify (l₁ ++ l₂) = countNotify l₁ + countNotify l₂ := by
  unfold countNotify
  rw [List.filter_append, List.length_append]

theorem countNotify_emitSocket_map (socks : List String) (ev : String) :
    countNotify (socks.map (fun sid => Effect.emitSocket sid ev)) = 0 := by
  induction socks with
  | nil => rfl
  | cons a t ih =>
    rw [List.map_cons]
    exact ih

theorem string_length_pos_iff (s : String) : 0 < s.length ↔ s ≠ "" := by
  constructor
  · intro h he
    subst he
    simp at h
  · intro h
    by_contra hc
    have h0 : s.length = 0 := by omega
    apply h
    cases s with
    | mk data =>
      cases data with
      | nil => decide
      | cons c cs => simp [String.length] at h0

theorem trim_ne_empty_of_ne (s : String) (h : jsTrim s ≠ "") : s ≠ "" := by
  intro he
  subst he
  exact h (by decide)

/-- C8 (confirmed): on the success path of the send-message handler (auth guard
passed, fast verify passed, chat found, caller a participant), the number of
offline-notification dispatch attempts is exactly one when the recipient (the
other participant) has no live presence key and the message text is non-blank,
and exactly zero otherwise (recipient online, or text blank). -/
theorem c8_offline_notification (env : AuthEnv) (db : DB) (redis : RedisState)
    (gs : GatewayState) (client : Session) (chatId : Nat) (text : String)
    (productId : Option Int) (uid : Int) (chat : Chat)
    (hu : client.userId = some uid)
    (hap : sessionAuthPresent client = true)
    (hfv : fastVerifyFails env redis.tokenCache client = false)
    (hchat : getChatById db chatId = some chat)
    (hpart : (chat.buyer_id == uid || chat.seller_id == uid) = true) :
    countNotify (handleMessage env db redis gs client chatId text productId).effects =
      if isUserOnline redis (if chat.buyer_id = uid then chat.seller_id else chat.buyer_id)
            = false ∧ jsTrim text ≠ "" then 1 else 0 := by
  unfold handleMessage
  rw [if_neg (by rw [hap]; simp)]
  rw [if_neg (by rw [hfv]; simp)]
  rw [hu]
  simp only [Option.getD_some, hchat]
  rw [if_neg (by rw [hpart]; simp)]
  dsimp only
  rw [countNotify_append, countNotify_append]
  have hc1 : countNotify [Effect.emitRoom ("chat:" ++ toString chatId) "message:new"]
      = 0 := rfl
  have hc2 : countNotify (match getSockets gs
        (if chat.buyer_id = uid then chat.seller_id else chat.buyer_id) with
      | some socks => socks.map (fun sid => Effect.emitSocket sid "unread:updated")
      | none => []) = 0 := by
    cases hs : getSockets gs (if chat.buyer_id = uid then chat.seller_id else chat.buyer_id) with
    | some socks => simp only [hs]; exact countNotify_emitSocket_map socks _
    | none => simp only [hs]; rfl
  rw [hc1, hc2]
  by_cases hq : isUserOnline redis
      (if chat.buyer_id = uid then chat.seller_id else chat.buyer_id) = false
      ∧ jsTrim text ≠ ""
  · have htext : text ≠ "" := trim_ne_empty_of_ne text hq.2
    have hlen : 0 < (jsTrim text).length := (string_length_pos_iff (jsTrim text)).mpr hq.2
    rw [if_pos ⟨hq.1, htext, hlen⟩, if_pos hq]
    rfl
  · have hnp : ¬ (isUserOnline redis
        (if chat.buyer_id = uid then chat.seller_id else chat.buyer_id) = false
        ∧ text ≠ "" ∧ 0 < (jsTrim text).length) := by
      intro hp
      exact hq ⟨hp.1, (string_length_pos_iff (jsTrim text)).mp hp.2.2⟩
    rw [if_neg hnp, if_neg hq]
    rfl

/-- C8 witness: user 1 sends a non-blank message in chat 0 with seller 2; with
no presence key for user 2, exactly one dispatch attempt is recorded. -/
theorem c8_witness :
    countNotify (handleMessage ⟨fun _ => some ⟨1, none⟩, 0⟩ ⟨[⟨0, 1, 2⟩], [], [], [], 1, 0⟩
      ⟨fun _ => none, [], []⟩ ⟨[], []⟩ ⟨"s", some 1, some "t"⟩ 0 "hi" none).effects = 1 := by
  have h := c8_offline_notification ⟨fun _ => some ⟨1, none⟩, 0⟩
    ⟨[⟨0, 1, 2⟩], [], [], [], 1, 0⟩ ⟨fun _ => none, [], []⟩ ⟨[], []⟩
    ⟨"s", some 1, some "t"⟩ 0 "hi" none 1 ⟨0, 1, 2⟩ rfl (by decide) (by decide) rfl
    (by decide)
  rw [h]
  decide

/-- C6: users 1 (socket sA) and 2 (socket sB) both connect
successfully and are joined to the room of their common chat 0. User 1 then
marks chat 0 as read. The handler emits the message:read event to the socket.io
room user:2 only; that room has no members (no code path ever joins a socket to
a user:* room), while user 2 does hold a live registered socket sB and is in
the chat room. So the other participant's sessions never receive the event. -/
theorem c6_message_read_room_empty :
    (handleMarkMessagesAsRead ⟨fun t => if t = "tokA" then some ⟨1, none⟩
        else if t = "tokB" then some ⟨2, none⟩ else none, 0⟩
      ⟨[⟨0, 1, 2⟩], [], [], [], 1, 0⟩
      (handleConnection ⟨fun t => if t = "tokA" then some ⟨1, none⟩
          else if t = "tokB" then some ⟨2, none⟩ else none, 0⟩
        (.success (some ⟨2, "", ""⟩)) ⟨[⟨0, 1, 2⟩], [], [], [], 1, 0⟩
        (handleConnection ⟨fun t => if t = "tokA" then some ⟨1, none⟩
            else if t = "tokB" then some ⟨2, none⟩ else none, 0⟩
          (.success (some ⟨1, "", ""⟩)) ⟨[⟨0, 1, 2⟩], [], [], [], 1, 0⟩
          ⟨fun _ => none, [], []⟩ ⟨[], []⟩ ⟨"sA", none, none⟩ (some "tokA")).redis
        (handleConnection ⟨fun t => if t = "tokA" then some ⟨1, none⟩
            else if t = "tokB" then some ⟨2, none⟩ else none, 0⟩
          (.success (some ⟨1, "", ""⟩)) ⟨[⟨0, 1, 2⟩], [], [], [], 1, 0⟩
          ⟨fun _ => none, [], []⟩ ⟨[], []⟩ ⟨"sA", none, none⟩ (some "tokA")).gs
        ⟨"sB", none, none⟩ (some "tokB")).redis
      ⟨"sA", some 1, some "tokA"⟩ 0 none).result = .success
    ∧ (handleMarkMessagesAsRead ⟨fun t => if t = "tokA" then some ⟨1, none⟩
        else if t = "tokB" then some ⟨2, none⟩ else none, 0⟩
      ⟨[⟨0, 1, 2⟩], [], [], [], 1, 0⟩
      (handleConnection ⟨fun t => if t = "tokA" then some ⟨1, none⟩
          else if t = "tokB" then some ⟨2, none⟩ else none, 0⟩
        (.success (some ⟨2, "", ""⟩)) ⟨[⟨0, 1, 2⟩], [], [], [], 1, 0⟩
        (handleConnection ⟨fun t => if t = "tokA" then some ⟨1, none⟩
            else if t = "tokB" then some ⟨2, none⟩ else none, 0⟩
          (.success (some ⟨1, "", ""⟩)) ⟨[⟨0, 1, 2⟩], [], [], [], 1, 0⟩
          ⟨fun _ => none, [], []⟩ ⟨[], []⟩ ⟨"sA", none, none⟩ (some "tokA")).redis
        (handleConnection ⟨fun t => if t = "tokA" then some ⟨1, none⟩
            else if t = "tokB" then some ⟨2, none⟩ else none, 0⟩
          (.success (some ⟨1, "", ""⟩)) ⟨[⟨0, 1, 2⟩], [], [], [], 1, 0⟩
          ⟨fun _ => none, [], []⟩ ⟨[], []⟩ ⟨"sA", none, none⟩ (some "tokA")).gs
        ⟨"sB", none, none⟩ (some "tokB")).redis
      ⟨"sA", some 1, some "tokA"⟩ 0 none).effects
      = [.emitSelf "sA" "unread:updated", .emitRoom "user:2" "message:read"]
    ∧ roomMembers (handleConnection ⟨fun t => if t = "tokA" then some ⟨1, none⟩
          else if t = "tokB" then some ⟨2, none⟩ else none, 0⟩
        (.success (some ⟨2, "", ""⟩)) ⟨[⟨0, 1, 2⟩], [], [], [], 1, 0⟩
        (handleConnection ⟨fun t => if t = "tokA" then some ⟨1, none⟩
            else if t = "tokB" then some ⟨2, none⟩ else none, 0⟩
          (.success (some ⟨1, "", ""⟩)) ⟨[⟨0, 1, 2⟩], [], [], [], 1, 0⟩
          ⟨fun _ => none, [], []⟩ ⟨[], []⟩ ⟨"sA", none, none⟩ (some "tokA")).redis
        (handleConnection ⟨fun t => if t = "tokA" then some ⟨1, none⟩
            else if t = "tokB" then some ⟨2, none⟩ else none, 0⟩
          (.success (some ⟨1, "", ""⟩)) ⟨[⟨0, 1, 2⟩], [], [], [], 1, 0⟩
          ⟨fun _ => none, [], []⟩ ⟨[], []⟩ ⟨"sA", none, none⟩ (some "tokA")).gs
        ⟨"sB", none, none⟩ (some "tokB")).gs "user:2" = []
    ∧ getSockets (handleConnection ⟨fun t => if t = "tokA" then some ⟨1, none⟩
          else if t = "tokB" then some ⟨2, none⟩ else none, 0⟩
        (.success (some ⟨2, "", ""⟩)) ⟨[⟨0, 1, 2⟩], [], [], [], 1, 0⟩
        (handleConnection ⟨fun t => if t = "tokA" then some ⟨1, none⟩
            else if t = "tokB" then some ⟨2, none⟩ else none, 0⟩
          (.success (some ⟨1, "", ""⟩)) ⟨[⟨0, 1, 2⟩], [], [], [], 1, 0⟩
          ⟨fun _ => none, [], []⟩ ⟨[], []⟩ ⟨"sA", none, none⟩ (some "tokA")).redis
        (handleConnection ⟨fun t => if t = "tokA" then some ⟨1, none⟩
            else if t = "tokB" then some ⟨2, none⟩ else none, 0⟩
          (.success (some ⟨1, "", ""⟩)) ⟨[⟨0, 1, 2⟩], [], [], [], 1, 0⟩
          ⟨fun _ => none, [], []⟩ ⟨[], []⟩ ⟨"sA", none, none⟩ (some "tokA")).gs
        ⟨"sB", none, none⟩ (some "tokB")).gs 2 = some ["sB"]
    ∧ roomMembers (handleConnection ⟨fun t => if t = "tokA" then some ⟨1, none⟩
          else if t = "tokB" then some ⟨2, none⟩ else none, 0⟩
        (.success (some ⟨2, "", ""⟩)) ⟨[⟨0, 1, 2⟩], [], [], [], 1, 0⟩
        (handleConnection ⟨fun t => if t = "tokA" then some ⟨1, none⟩
            else if t = "tokB" then some ⟨2, none⟩ else none, 0⟩
          (.success (some ⟨1, "", ""⟩)) ⟨[⟨0, 1, 2⟩], [], [], [], 1, 0⟩
          ⟨fun _ => none, [], []⟩ ⟨[], []⟩ ⟨"sA", none, none⟩ (some "tokA")).redis
        (handleConnection ⟨fun t => if t = "tokA" then some ⟨1, none⟩
            else if t = "tokB" then some ⟨2, none⟩ else none, 0⟩
          (.success (some ⟨1, "", ""⟩)) ⟨[⟨0, 1, 2⟩], [], [], [], 1, 0⟩
          ⟨fun _ => none, [], []⟩ ⟨[], []⟩ ⟨"sA", none, none⟩ (some "tokA")).gs
        ⟨"sB", none, none⟩ (some "tokB")).gs "chat:0" = ["sA", "sB"] := by
  refine ⟨rfl, rfl, rfl, rfl, rfl⟩

end WeaponMsg
